import Mathlib

/-!
Verification of the comfy-flux-wan-automation scripts.

This file gives a shallow embedding, in Lean 4, of the pieces of the
repository that the specification talks about: the workflow-graph
builders, the job submitters, the completion pollers, the prompt
enhancers with their deterministic fallbacks, the credential check at
startup, and the endpoint-selection logic.  HTTP traffic is modelled by
explicit outcome values (a response with a status code and a parsed
body, or a raised exception), and the wall clock read by `time.time()`
is passed in as an explicit argument, so that every Python function
becomes a total Lean function of its inputs and of the observed network
trace.
-/

/-! ## JSON-ish values and workflow graphs

A ComfyUI workflow is a JSON object mapping string node ids to nodes;
each node has a `class_type` and an `inputs` object whose values are
either literals (strings, integers, decimals) or two-element references
`[node_id, output_slot]`.  Python dicts keep insertion order, so a graph
is embedded as an association list.
-/

inductive JVal where
  | s : String → JVal
  | n : Nat → JVal
  | q : ℚ → JVal
  | ref : String → Nat → JVal
deriving DecidableEq, Repr

structure JNode where
  class_type : String
  inputs : List (String × JVal)
deriving DecidableEq, Repr

abbrev Graph := List (String × JNode)

def graphKeys (g : Graph) : List String := g.map Prod.fst

def valRefOk (keys : List String) : JVal → Bool
  | .ref nodeId _ => keys.contains nodeId
  | _ => true

def nodeRefsOk (keys : List String) (nd : JNode) : Bool :=
  nd.inputs.all (fun p => valRefOk keys p.2)

/-- A graph has no dangling references when every `[node_id, slot]`
appearing among the inputs names a key of the same graph. -/
def refsResolve (g : Graph) : Bool :=
  g.all (fun p => nodeRefsOk (graphKeys g) p.2)

/-! ## Network outcomes

`PollOutcome` is what one `GET {base_url}/history/{id}` observes: either
a raised exception, or a response with a status code and the set of job
ids present as keys of the parsed JSON body.  `SubmitOutcome` is what
one `POST {base_url}/prompt` observes: either a raised exception, or a
response with a status code and the parsed JSON body, modelled as a
string-to-string association list (the scripts only ever read the
`prompt_id` field).
-/

inductive PollOutcome where
  | exn : PollOutcome
  | resp : Nat → List String → PollOutcome
deriving DecidableEq, Repr

inductive SubmitOutcome where
  | exn : SubmitOutcome
  | resp : Nat → List (String × String) → SubmitOutcome
deriving DecidableEq, Repr

def bodyGet (body : List (String × String)) (k : String) : Option String :=
  (body.find? (fun p => p.1 == k)).map Prod.snd

/-- One polling probe, as checked inside the loop body of every
`wait_for_completion` in the repo: the query succeeded with status 200
and the job id is a key of the history response. -/
def pollFound (out : PollOutcome) (promptId : String) : Bool :=
  match out with
  | .exn => false
  | .resp status keys => status == 200 && keys.contains promptId

/-! ## Completion pollers

`yoga_beach_generator_final.wait_for_completion` loops while
`time.time() - start_time < timeout`, issuing one history query per
iteration and sleeping 5 seconds after each; time is discretised so
that the k-th loop-condition check happens at elapsed time `5 * k`.
The history trace `h : Nat → PollOutcome` gives the outcome of the k-th
query.
-/

def yogaWaitFrom (h : Nat → PollOutcome) (promptId : String)
    (timeout : Nat) (k : Nat) : Bool :=
  if 5 * k < timeout then
    if pollFound (h k) promptId then true
    else yogaWaitFrom h promptId timeout (k + 1)
  else false
termination_by timeout - 5 * k
decreasing_by omega

def wait_for_completion (h : Nat → PollOutcome) (promptId : String)
    (timeout : Nat) : Bool :=
  yogaWaitFrom h promptId timeout 0

/-- `instagram_lora_generator.check_progress`: True exactly when the
query returned status 200 and the id is in the history; any exception
is caught and reported as False. -/
def check_progress (out : PollOutcome) (promptId : String) : Bool :=
  match out with
  | .exn => false
  | .resp status keys => if status == 200 then keys.contains promptId else false

/-- `instagram_lora_generator.wait_for_completion`: same loop shape as
the yoga script but with a 2-second sleep, testing `check_progress`
each iteration. -/
def instaWaitFrom (h : Nat → PollOutcome) (promptId : String)
    (timeout : Nat) (k : Nat) : Bool :=
  if 2 * k < timeout then
    if check_progress (h k) promptId then true
    else instaWaitFrom h promptId timeout (k + 1)
  else false
termination_by timeout - 2 * k
decreasing_by omega

/-- `flux_lora_generator_fixed.wait_for_completion` is `while True:`
with no timeout parameter at all.  It is embedded with explicit fuel:
`none` means the loop is still running after `fuel` iterations. -/
def fluxWaitFuel (h : Nat → PollOutcome) (promptId : String) :
    Nat → Nat → Option Bool
  | 0, _ => none
  | fuel + 1, k =>
    if pollFound (h k) promptId then some true
    else fluxWaitFuel h promptId fuel (k + 1)

/-- A history trace from a reachable server whose history never
contains any job id. -/
def neverHist : Nat → PollOutcome := fun _ => .resp 200 []

/-! ## Job submitters

Each submitter performs exactly one POST (no retries); its behaviour is
a function of that one observed outcome.  `Except String (Option α)`
records whether the Python function returns normally (`.ok`) or lets an
exception propagate to its caller (`.error`).
-/

/-- `src/core/comfy_manager.ComfyUIManager.queue_prompt`: returns `None`
without posting when `is_running()` is false; on status 200 returns
`response.json().get("prompt_id")`; on any other status, or on an
exception inside the `try`, returns `None`.  `running` is the outcome
of the `is_running()` probe. -/
def comfy_queue_prompt (running : Bool) (out : SubmitOutcome) :
    Except String (Option String) :=
  if running then
    match out with
    | .exn => .ok none
    | .resp status body =>
      if status == 200 then .ok (bodyGet body "prompt_id") else .ok none
  else .ok none

/-- `yoga_beach_generator_final.queue_prompt`: on status 200 returns the
whole parsed response body (`response.json()`), on any other status or
any exception returns `None`. -/
def yoga_queue_prompt (out : SubmitOutcome) :
    Except String (Option (List (String × String))) :=
  match out with
  | .exn => .ok none
  | .resp status body =>
    if status == 200 then .ok (some body) else .ok none

/-- `flux_lora_generator_fixed.queue_workflow`: no `try` at all, so a
network exception propagates; on status 200 it returns
`response.json()["prompt_id"]`, which raises `KeyError` when the field
is absent; on any other status it returns `None`. -/
def flux_queue_workflow (out : SubmitOutcome) :
    Except String (Option String) :=
  match out with
  | .exn => .error "requests exception"
  | .resp status body =>
    if status == 200 then
      match bodyGet body "prompt_id" with
      | some v => .ok (some v)
      | none => .error "KeyError: prompt_id"
    else .ok none

/-- `instagram_lora_generator.queue_prompt`: on status 200 returns
`result.get('prompt_id')`, on any other status or any exception
returns `None`. -/
def insta_queue_prompt (out : SubmitOutcome) :
    Except String (Option String) :=
  match out with
  | .exn => .ok none
  | .resp status body =>
    if status == 200 then .ok (bodyGet body "prompt_id") else .ok none

/-! ## Graph builders -/

/-- The workflow dict built inside `generate_images.generate_image`.
The Python function reads the clock (`int(time.time())`) for the
`RandomNoise` seed; `now` makes that read explicit. -/
def generate_image_workflow (prompt negative_prompt filename_prefix : String)
    (now : Nat) : Graph :=
  [ ("1", ⟨"CLIPTextEncode", [("text", .s prompt), ("clip", .ref "3" 0)]⟩),
    ("2", ⟨"CLIPTextEncode", [("text", .s negative_prompt), ("clip", .ref "3" 0)]⟩),
    ("3", ⟨"DualCLIPLoader",
      [("clip_name1", .s "umt5-xxl-enc-bf16.safetensors"),
       ("clip_name2", .s "open-clip-xlm-roberta-large-vit-huge-14_visual_fp16.safetensors"),
       ("type", .s "flux")]⟩),
    ("4", ⟨"UNETLoader",
      [("unet_name", .s "flux1-dev.safetensors"), ("weight_dtype", .s "default")]⟩),
    ("5", ⟨"FluxGuidance", [("guidance", .q 3.5), ("conditioning", .ref "1" 0)]⟩),
    ("6", ⟨"BasicGuider", [("model", .ref "4" 0), ("conditioning", .ref "5" 0)]⟩),
    ("7", ⟨"RandomNoise", [("noise_seed", .n (now % 1000000))]⟩),
    ("8", ⟨"BasicScheduler",
      [("model", .ref "4" 0), ("scheduler", .s "simple"),
       ("steps", .n 20), ("denoise", .q 1.0)]⟩),
    ("9", ⟨"KSamplerSelect", [("sampler_name", .s "euler")]⟩),
    ("10", ⟨"SamplerCustomAdvanced",
      [("noise", .ref "7" 0), ("guider", .ref "6" 0), ("sampler", .ref "9" 0),
       ("sigmas", .ref "8" 0), ("latent_image", .ref "11" 0)]⟩),
    ("11", ⟨"EmptyLatentImage",
      [("width", .n 1024), ("height", .n 1024), ("batch_size", .n 1)]⟩),
    ("12", ⟨"VAELoader", [("vae_name", .s "Wan2_1_VAE_bf16.safetensors")]⟩),
    ("13", ⟨"VAEDecode", [("samples", .ref "10" 0), ("vae", .ref "12" 0)]⟩),
    ("14", ⟨"SaveImage",
      [("filename_prefix", .s filename_prefix), ("images", .ref "13" 0)]⟩) ]

/-- Python truthiness of an optional string (`None` and `""` are
falsy). -/
def pyTruthy : Option String → Bool
  | none => false
  | some s => !(s == "")

/-- The workflow dict built by
`advanced_instagram_generator.AdvancedInstagramGenerator.create_advanced_workflow`.
The Python code first builds nodes 4..10, then in the LoRA branch
inserts node 3 and the two text encoders wired to the LoRA clip output
and rewires the sampler model input to node 3; otherwise it inserts the
two text encoders wired to the DualCLIPLoader.  `now` is the value of
`int(time.time())` read for the seed and the filename prefix. -/
def create_advanced_workflow (prompt negative_prompt : String)
    (lora_file : Option String) (lora_strength : ℚ)
    (trigger_words : List String) (width height steps : Nat) (cfg : ℚ)
    (now : Nat) : Graph :=
  let final_prompt :=
    if pyTruthy lora_file && !trigger_words.isEmpty then
      String.intercalate ", " (trigger_words.take 3) ++ ", " ++ prompt
    else prompt
  let workflow_id := "adv_ig_" ++ toString now
  let modelRef : JVal := if pyTruthy lora_file then .ref "3" 0 else .ref "7" 0
  let clipRef : JVal := if pyTruthy lora_file then .ref "3" 1 else .ref "6" 0
  let base : Graph :=
    [ ("4", ⟨"EmptyLatentImage",
        [("width", .n width), ("height", .n height), ("batch_size", .n 1)]⟩),
      ("5", ⟨"KSampler",
        [("seed", .n (now % 1000000)), ("steps", .n steps), ("cfg", .q cfg),
         ("sampler_name", .s "euler"), ("scheduler", .s "normal"),
         ("denoise", .q 1.0), ("model", modelRef), ("positive", .ref "1" 0),
         ("negative", .ref "2" 0), ("latent_image", .ref "4" 0)]⟩),
      ("6", ⟨"DualCLIPLoader",
        [("clip_name1", .s "umt5-xxl-enc-bf16.safetensors"),
         ("clip_name2", .s "open-clip-xlm-roberta-large-vit-huge-14_visual_fp16.safetensors"),
         ("type", .s "flux")]⟩),
      ("7", ⟨"UNETLoader",
        [("unet_name", .s "Wan2_1-InfiniTetalk-Single_fp16.safetensors"),
         ("weight_dtype", .s "default")]⟩),
      ("8", ⟨"VAEDecode", [("samples", .ref "5" 0), ("vae", .ref "9" 0)]⟩),
      ("9", ⟨"VAELoader", [("vae_name", .s "Wan2_1_VAE_bf16.safetensors")]⟩),
      ("10", ⟨"SaveImage",
        [("filename_prefix", .s workflow_id), ("images", .ref "8" 0)]⟩) ]
  let loraNodes : Graph :=
    match lora_file with
    | some lf =>
      if !(lf == "") then
        [ ("3", ⟨"LoraLoader",
            [("lora_name", .s lf), ("strength_model", .q lora_strength),
             ("strength_clip", .q lora_strength), ("model", .ref "7" 0),
             ("clip", .ref "6" 0)]⟩) ]
      else []
    | none => []
  base ++ loraNodes ++
    [ ("1", ⟨"CLIPTextEncode", [("text", .s final_prompt), ("clip", clipRef)]⟩),
      ("2", ⟨"CLIPTextEncode", [("text", .s negative_prompt), ("clip", clipRef)]⟩) ]

/-- The optimization-result record consumed by the batch generator: the
fields `create_optimized_workflow` and `generate_batch` read from the
dict produced by `parse_optimization_result` / `fallback_optimization`. -/
structure OptData where
  optimized_prompt : String
  negative_prompt : String
  style_notes : String
  steps : Nat
  cfg : ℚ
  sampler : String
deriving DecidableEq, Repr

/-- The workflow dict built by
`advanced_batch_generator.AdvancedBatchGenerator.create_optimized_workflow`. -/
def create_optimized_workflow (optimized_data : OptData) (timestamp : Nat) :
    Graph :=
  [ ("1", ⟨"CLIPTextEncode",
      [("text", .s optimized_data.optimized_prompt), ("clip", .ref "2" 0)]⟩),
    ("2", ⟨"DualCLIPLoader",
      [("clip_name1", .s "umt5-xxl-enc-bf16.safetensors"),
       ("clip_name2", .s "open-clip-xlm-roberta-large-vit-huge-14_visual_fp16.safetensors"),
       ("type", .s "flux")]⟩),
    ("3", ⟨"EmptyLatentImage",
      [("width", .n 1024), ("height", .n 1024), ("batch_size", .n 1)]⟩),
    ("4", ⟨"CLIPTextEncode",
      [("text", .s optimized_data.negative_prompt), ("clip", .ref "2" 0)]⟩),
    ("5", ⟨"KSampler",
      [("seed", .n (timestamp % 1000000)), ("steps", .n optimized_data.steps),
       ("cfg", .q optimized_data.cfg),
       ("sampler_name", .s optimized_data.sampler), ("scheduler", .s "normal"),
       ("denoise", .q 1.0), ("model", .ref "6" 0), ("positive", .ref "1" 0),
       ("negative", .ref "4" 0), ("latent_image", .ref "3" 0)]⟩),
    ("6", ⟨"UNETLoader",
      [("unet_name", .s "Wan2_1-InfiniTetalk-Single_fp16.safetensors"),
       ("weight_dtype", .s "default")]⟩),
    ("7", ⟨"VAEDecode", [("samples", .ref "5" 0), ("vae", .ref "8" 0)]⟩),
    ("8", ⟨"VAELoader", [("vae_name", .s "Wan2_1_VAE_bf16.safetensors")]⟩),
    ("9", ⟨"SaveImage",
      [("filename_prefix", .s ("optimized_batch_" ++ toString timestamp)),
       ("images", .ref "7" 0)]⟩) ]

/-! ## Prompt enhancers and their fallbacks -/

/-- `advanced_instagram_generator.OllamaOptimizer._fallback_enhance`:
the quality keyword pool. -/
def quality_words : List String :=
  [ "high quality", "detailed", "professional", "photorealistic",
    "sharp focus", "beautiful lighting", "masterpiece", "8K resolution",
    "hyperdetailed", "award winning photography" ]

/-- `_fallback_enhance`: the Instagram-style keyword pool. -/
def instagram_style : List String :=
  [ "instagram style", "social media ready", "aesthetic", "trendy",
    "modern photography", "lifestyle photo", "influencer style" ]

/-- The fixed negative prompt returned by `_fallback_enhance`. -/
def insta_fallback_negative : String :=
  "blurry, low quality, distorted, amateur, bad anatomy, deformed, ugly, pixelated, watermark, text, signature"

/-- The keyword pool `_fallback_enhance` samples from:
`quality_words + instagram_style`, extended with the first two LoRA
trigger words when a non-empty trigger list is given. -/
def insta_enhancement_pool (lora_triggers : List String) : List String :=
  quality_words ++ instagram_style ++
    (if lora_triggers.isEmpty then [] else lora_triggers.take 2)

/-- `_fallback_enhance` itself.  `random.sample(pool, min(5, len(pool)))`
is modelled by the list of indices the sampler draws; the selected
enhancements are the pool elements at those indices. -/
def insta_fallback_enhance (prompt : String) (lora_triggers : List String)
    (sampleIdxs : List Nat) : String × String :=
  let pool := insta_enhancement_pool lora_triggers
  let selected := sampleIdxs.filterMap (fun j => pool.get? j)
  (prompt ++ ", " ++ String.intercalate ", " selected, insta_fallback_negative)

/-- The fixed negative prompt returned by
`advanced_batch_generator.OllamaPromptOptimizer.fallback_optimization`. -/
def batch_fallback_negative : String :=
  "blurry, low quality, distorted, amateur, bad lighting, pixelated, ugly, deformed, watermark"

/-- `advanced_batch_generator.OllamaPromptOptimizer.fallback_optimization`. -/
def fallback_optimization (base_prompt : String) : OptData :=
  { optimized_prompt := base_prompt ++
      ", professional photography, high quality, detailed, sharp focus, perfect lighting, cinematic composition, 8k resolution, masterpiece",
    negative_prompt := batch_fallback_negative,
    style_notes := "Fallback enhancement with proven keywords",
    steps := 25, cfg := 7.5, sampler := "euler" }

/-- The quality-descriptor keywords of the batch fallback, as a list
(the source writes them inline in one f-string). -/
def batch_fallback_keywords : List String :=
  [ "professional photography", "high quality", "detailed", "sharp focus",
    "perfect lighting", "cinematic composition", "8k resolution",
    "masterpiece" ]

/-- `promptsmith_client.ENDPOINTS`: the fixed candidate list, in
declaration order. -/
def ENDPOINTS : List String :=
  [ "http://127.0.0.1:11434", "http://localhost:11434",
    "http://10.0.0.100:8080", "http://127.0.0.1:8080" ]

/-- `promptsmith_client.test_endpoint`: GET `{url}/api/tags` with a 5s
timeout; True exactly when the probe returns status 200; any exception
(`none`) yields False.  `probe` maps a full URL to the observed status,
`none` meaning the request raised. -/
def test_endpoint (probe : String → Option Nat) (url : String) : Bool :=
  match probe (url ++ "/api/tags") with
  | some status => status == 200
  | none => false

def find_working_endpoint_aux (probe : String → Option Nat) :
    List String → Option String
  | [] => none
  | e :: rest =>
    if test_endpoint probe e then some e
    else find_working_endpoint_aux probe rest

/-- `promptsmith_client.find_working_endpoint`: scan `ENDPOINTS` in
order, return the first whose probe succeeds, else `None`. -/
def find_working_endpoint (probe : String → Option Nat) : Option String :=
  find_working_endpoint_aux probe ENDPOINTS

/-- `promptsmith_client.expand_prompt_fallback`: the four candidate
style strings. -/
def promptsmith_styles : List String :=
  [ "masterpiece, best quality, highly detailed",
    "photorealistic, 8K resolution, professional photography",
    "cinematic lighting, dramatic composition",
    "vibrant colors, sharp focus, intricate details" ]

/-- `promptsmith_client.expand_prompt_fallback`: `random.choice(styles)`
is modelled by the chosen index. -/
def expand_prompt_fallback (base_prompt : String) (choice : Nat) : String :=
  base_prompt ++ ", " ++ promptsmith_styles.getD choice ""

/-- `promptsmith_client.expand_prompt`: find a working endpoint; if one
exists try the Ollama API then the llama.cpp API (each modelled by the
`Option String` it returns, `none` for the caught-exception path, with
Python truthiness ruling out the empty string); otherwise, or when both
return nothing usable, fall back to `expand_prompt_fallback`. -/
def promptsmith_expand_prompt (probe : String → Option Nat)
    (ollamaOut llamaOut : Option String) (choice : Nat)
    (base_prompt : String) : String :=
  match find_working_endpoint probe with
  | some _ =>
    if pyTruthy ollamaOut then ollamaOut.getD ""
    else if pyTruthy llamaOut then llamaOut.getD ""
    else expand_prompt_fallback base_prompt choice
  | none => expand_prompt_fallback base_prompt choice

/-! ## Configuration and startup (`src/config.py` and the script
prologues)

`env` maps an environment-variable name to its value after
`load_dotenv`, `none` when unset.
-/

/-- `config.HF_TOKEN = os.environ.get("HF_TOKEN", "")`. -/
def cfg_HF_TOKEN (env : String → Option String) : String :=
  (env "HF_TOKEN").getD ""

/-- `config.CIVITAI_TOKEN = os.environ.get("CIVITAI_TOKEN",
os.environ.get("HF_TOKEN", ""))`. -/
def cfg_CIVITAI_TOKEN (env : String → Option String) : String :=
  (env "CIVITAI_TOKEN").getD ((env "HF_TOKEN").getD "")

structure SecretsCheck where
  ok : Bool
  missing : List String
  printed : List String
deriving DecidableEq, Repr

/-- `config.verify_secrets`: collect the names of the empty required
tokens; when any are missing, print a message listing them and return
False, otherwise print a success note and return True. -/
def verify_secrets (env : String → Option String) : SecretsCheck :=
  let missing :=
    (if cfg_HF_TOKEN env == "" then ["HF_TOKEN"] else []) ++
    (if cfg_CIVITAI_TOKEN env == "" then ["CIVITAI_TOKEN"] else [])
  if !missing.isEmpty then
    { ok := false, missing := missing,
      printed :=
        [ "⚠️  Missing required secrets: " ++ String.intercalate ", " missing,
          "Make sure ~/Workspaces/secrets.env exists and is properly formatted" ] }
  else
    { ok := true, missing := [],
      printed := [ "✅ Secrets loaded successfully!" ] }

/-- An observable step of a script run: a printed line, a process exit
with a code, or an HTTP request to some URL. -/
inductive StartupStep where
  | printedLine : String → StartupStep
  | exited : Nat → StartupStep
  | networkCall : String → StartupStep
deriving DecidableEq, Repr

/-- The module-level prologue shared by `yoga_beach_generator_final.py`,
`fal_yoga_generator_fixed.py`, `hf_yoga_generator.py` and the other
generator scripts: `if not verify_secrets(): sys.exit(1)` runs at module
load time, before `main` (whose steps are `mainSteps`) can issue any
request. -/
def script_startup (env : String → Option String)
    (mainSteps : List StartupStep) : List StartupStep :=
  let check := verify_secrets env
  (check.printed.map .printedLine) ++
    (if check.ok then mainSteps else [.exited 1])

/-! ## Defensive parsing
(`advanced_batch_generator.OllamaPromptOptimizer.parse_optimization_result`)
-/

/-- Arbitrary JSON-like Python values, as returned by `json.loads`. -/
inductive PyVal where
  | str : String → PyVal
  | num : ℚ → PyVal
  | dict : List (String × PyVal) → PyVal

def pyKeys : PyVal → List String
  | .dict l => l.map Prod.fst
  | _ => []

/-- Python `s.find(c)` on the character list of `s` (`none` for -1). -/
def pyFindIdx (cs : List Char) (c : Char) : Option Nat :=
  cs.findIdx? (· == c)

/-- Python `s.rfind(c)` (`none` for -1). -/
def pyRFindIdx (cs : List Char) (c : Char) : Option Nat :=
  match cs.reverse.findIdx? (· == c) with
  | some i => some (cs.length - 1 - i)
  | none => none

/-- The extraction step of `parse_optimization_result`:
`start = response.find('{')`, `end = response.rfind('}') + 1`, and the
slice `response[start:end]` is taken when `start >= 0 and end > start`. -/
def extract_json_substring (response : String) : Option String :=
  let cs := response.toList
  match pyFindIdx cs '{', pyRFindIdx cs '}' with
  | some s, some e =>
    if e + 1 > s then some (String.mk ((cs.drop s).take (e + 1 - s)))
    else none
  | some _, none => none
  | none, _ => none

/-- The default mapping `parse_optimization_result` falls back to:
`optimized_prompt` is the response truncated to 200 characters plus an
ellipsis when longer than 200. -/
def default_optimization (response : String) : PyVal :=
  .dict
    [ ("optimized_prompt",
        .str (if response.length > 200
              then String.mk (response.toList.take 200) ++ "..."
              else response)),
      ("negative_prompt", .str "blurry, low quality, distorted, amateur"),
      ("style_notes", .str "AI-optimized prompt"),
      ("recommended_settings",
        .dict [("steps", .num 25), ("cfg", .num 7.5), ("sampler", .str "euler")]) ]

/-- `parse_optimization_result`: try the brace-delimited substring with
a strict parse (`loads`, `none` for a raised `JSONDecodeError`); on any
failure return the default mapping.  The whole body is wrapped in
`try/except`, so the function never raises. -/
def parse_optimization_result (loads : String → Option PyVal)
    (response : String) : PyVal :=
  match extract_json_substring response with
  | some sub =>
    match loads sub with
    | some v => v
    | none => default_optimization response
  | none => default_optimization response

/-! ## Batch generation
(`advanced_batch_generator.AdvancedBatchGenerator.generate_batch` and
`fal_yoga_generator_fixed.generate_all_images`)
-/

/-- Python `enumerate(xs, start)`. -/
def pyEnumerate (start : Nat) : List α → List (Nat × α)
  | [] => []
  | x :: xs => (start, x) :: pyEnumerate (start + 1) xs

/-- One entry of the `results` list appended by `generate_batch` after
a successful queue POST. -/
structure BatchResult where
  prompt_id : Option String
  original_prompt : String
  optimized_prompt : String
  workflow_file : String
  optimization_file : String
  timestamp : Nat
deriving DecidableEq, Repr

/-- Did the submit POST come back with status 200? -/
def isSubmitSuccess : SubmitOutcome → Bool
  | .exn => false
  | .resp status _ => status == 200

def batchResultFor (p : String) (data : OptData) (ts : Nat)
    (body : List (String × String)) : BatchResult :=
  { prompt_id := bodyGet body "prompt_id",
    original_prompt := p,
    optimized_prompt := data.optimized_prompt,
    workflow_file := "workflows/batch/optimized_" ++ toString ts ++ ".json",
    optimization_file := "workflows/batch/optimization_" ++ toString ts ++ ".json",
    timestamp := ts }

/-- The per-prompt loop of `generate_batch`, over the enumerated prompt
list (1-based, as `enumerate(base_prompts, 1)`).  For item `i`:
`timestamp = int(time.time()) + i` (the clock read is `times i`); the
optimization data is the Ollama result (`optOut i`) when optimization
is on, else `fallback_optimization`; the queue POST outcome is
`submit i`.  Only a 200 response appends a result; a non-200 status or
a raised exception is printed and the loop moves on. -/
def generate_batch_go (use_optimization : Bool) (optOut : Nat → OptData)
    (times : Nat → Nat) (submit : Nat → SubmitOutcome) :
    List (Nat × String) → List BatchResult
  | [] => []
  | (i, p) :: rest =>
    let ts := times i + i
    let data := if use_optimization then optOut i else fallback_optimization p
    let tail := generate_batch_go use_optimization optOut times submit rest
    match submit i with
    | .resp status body =>
      if status == 200 then batchResultFor p data ts body :: tail else tail
    | .exn => tail

/-- `generate_batch`: when ComfyUI is unavailable return `[]` at once,
otherwise run the loop over every prompt. -/
def generate_batch (comfy_available use_optimization : Bool)
    (prompts : List String) (optOut : Nat → OptData) (times : Nat → Nat)
    (submit : Nat → SubmitOutcome) : List BatchResult :=
  if comfy_available then
    generate_batch_go use_optimization optOut times submit
      (pyEnumerate 1 prompts)
  else []

/-- The outcome of one `generate_single_image` task in
`fal_yoga_generator_fixed`: a returned dict with `status == "success"`,
a returned dict with `status == "failed"` (its own `except` catches
everything), or an exception surfaced by `asyncio.gather`. -/
inductive FalOutcome where
  | success : FalOutcome
  | failed : FalOutcome
  | raised : FalOutcome
deriving DecidableEq, Repr

/-- The summary counts written by `generate_all_images` into
`fal_yoga_generation_log.json`: `successful` counts the valid results
with status success; `failed` counts the valid results with status
failed plus the gathered exceptions. -/
def fal_summary (rs : List FalOutcome) : Nat × Nat :=
  (rs.countP (fun r => r == .success),
   rs.countP (fun r => r == .failed) + rs.countP (fun r => r == .raised))

/-! ## Helper lemmas and auxiliary definitions for the claims -/

/-- Look up one input value of one node of a graph. -/
def nodeInput (g : Graph) (nodeId field : String) : Option JVal :=
  match g.find? (fun p => p.1 == nodeId) with
  | some pr => (pr.2.inputs.find? (fun q => q.1 == field)).map Prod.snd
  | none => none

/-- Does a submitter result model a propagating Python exception? -/
def raisesException (e : Except String (Option String)) : Bool :=
  match e with
  | .error _ => true
  | .ok _ => false

/-- Modelled from the spec (section 4.2 Job Submitter): on HTTP 200
extract and return the job id string from the response body; on any
other status or network failure return an absent result; return `none`
without submitting when the liveness probe failed. -/
def queue_prompt_spec (running : Bool) (out : SubmitOutcome) : Option String :=
  if running then
    match out with
    | .exn => none
    | .resp status body =>
      if status = 200 then bodyGet body "prompt_id" else none
  else none

theorem yogaWaitFrom_never_aux (h : Nat → PollOutcome) (pid : String) (T : Nat)
    (hnever : ∀ k, pollFound (h k) pid = false) :
    ∀ (m k : Nat), T - 5 * k ≤ m → yogaWaitFrom h pid T k = false := by
  intro m
  induction m with
  | zero =>
    intro k hk
    rw [yogaWaitFrom, if_neg (by omega)]
  | succ m ih =>
    intro k hk
    rw [yogaWaitFrom]
    by_cases hc : 5 * k < T
    · rw [if_pos hc, hnever k]
      simpa using ih (k + 1) (by omega)
    · rw [if_neg hc]

theorem instaWaitFrom_never_aux (h : Nat → PollOutcome) (pid : String) (T : Nat)
    (hnever : ∀ k, check_progress (h k) pid = false) :
    ∀ (m k : Nat), T - 2 * k ≤ m → instaWaitFrom h pid T k = false := by
  intro m
  induction m with
  | zero =>
    intro k hk
    rw [instaWaitFrom, if_neg (by omega)]
  | succ m ih =>
    intro k hk
    rw [instaWaitFrom]
    by_cases hc : 2 * k < T
    · rw [if_pos hc, hnever k]
      simpa using ih (k + 1) (by omega)
    · rw [if_neg hc]

/-- The flux poller never returns when the history never contains the
id, whatever the fuel. -/
theorem fluxWaitFuel_never (pid : String) :
    ∀ (fuel k : Nat), fluxWaitFuel neverHist pid fuel k = none := by
  intro fuel
  induction fuel with
  | zero => intro k; rfl
  | succ n ih => intro k; exact ih (k + 1)

theorem find_working_endpoint_aux_eq_find (probe : String → Option Nat) :
    ∀ l : List String,
      find_working_endpoint_aux probe l =
        l.find? (fun e => test_endpoint probe e) := by
  intro l
  induction l with
  | nil => rfl
  | cons e rest ih =>
    cases hb : test_endpoint probe e with
    | true => simp [find_working_endpoint_aux, List.find?_cons, hb]
    | false => simp [find_working_endpoint_aux, List.find?_cons, hb, ih]

/-! ## The claims -/

/-- Claim C1 (amended): for the pollers that take a timeout parameter
(yoga_beach_generator_final and instagram_lora_generator), if the job
id never appears in any history response, `wait_for_completion` returns
False once the elapsed time reaches the timeout, and never loops
beyond it; the flux_lora_generator_fixed poller, by contrast, takes no
timeout and never returns at all (see the counterexample). -/
theorem c1_pollers_with_timeout_return_false :
    (∀ (h : Nat → PollOutcome) (pid : String) (T : Nat),
      (∀ k, pollFound (h k) pid = false) →
      wait_for_completion h pid T = false) ∧
    (∀ (h : Nat → PollOutcome) (pid : String) (T : Nat),
      (∀ k, check_progress (h k) pid = false) →
      instaWaitFrom h pid T 0 = false) := by
  constructor
  · intro h pid T hnever
    exact yogaWaitFrom_never_aux h pid T hnever (T - 5 * 0) 0 (le_refl _)
  · intro h pid T hnever
    exact instaWaitFrom_never_aux h pid T hnever (T - 2 * 0) 0 (le_refl _)

/-- Claim C1, witness: a reachable server whose history never lists the
job returns "not completed" for the default 600-second timeout. -/
theorem c1_witness :
    wait_for_completion neverHist "abc123" 600 = false :=
  c1_pollers_with_timeout_return_false.1 neverHist "abc123" 600 (fun _ => rfl)

/-- Claim C1, counterexample: the flux_lora_generator_fixed poller,
given a server that answers 200 with an empty history forever, is still
looping after 10^9 iterations — it has no timeout and never returns, so
the claim "for every job id and every finite timeout T, the completion
poller terminates" is false of that cited `wait_for_completion`. -/
theorem c1_flux_poller_never_returns :
    fluxWaitFuel neverHist "abc123" 1000000000 0 = none :=
  fluxWaitFuel_never "abc123" 1000000000 0

/-- Claim C2 (amended): the comfy_manager and instagram submitters do
behave as the claim says — on HTTP 200 they return the `prompt_id`
extracted from the body, and on any other status or network failure
they return `None` without raising and without retrying (each consumes
exactly one POST outcome).  The yoga submitter returns the whole parsed
body rather than the id string, and the flux submitter propagates
network exceptions (see the counterexample). -/
theorem c2_submitters_match_spec :
    (∀ (running : Bool) (out : SubmitOutcome),
      comfy_queue_prompt running out = .ok (queue_prompt_spec running out)) ∧
    (∀ out : SubmitOutcome,
      insta_queue_prompt out = .ok (queue_prompt_spec true out)) := by
  constructor
  · intro running out
    cases out with
    | exn => cases running <;> rfl
    | resp status body =>
      cases running with
      | false => rfl
      | true =>
        by_cases h : status = 200
        · simp [comfy_queue_prompt, queue_prompt_spec, h]
        · simp [comfy_queue_prompt, queue_prompt_spec, h]
  · intro out
    cases out with
    | exn => rfl
    | resp status body =>
      by_cases h : status = 200
      · simp [insta_queue_prompt, queue_prompt_spec, h]
      · simp [insta_queue_prompt, queue_prompt_spec, h]

/-- Claim C2, counterexample: on a network failure the
flux_lora_generator_fixed submitter does not return `None` — it lets
the `requests` exception propagate, so "never raising on any network
failure" is false of that cited `queue_workflow`. -/
theorem c2_flux_raises_on_network_failure :
    raisesException (flux_queue_workflow SubmitOutcome.exn) = true ∧
    flux_queue_workflow SubmitOutcome.exn = Except.error "requests exception" :=
  ⟨rfl, rfl⟩

/-- Claim C3: for every workflow-building function and every combination
of its parameters (including with and without a LoRA node), every
two-element reference `[node_id, slot]` among the node inputs names a
node id present in the same graph — no dangling references. -/
theorem c3_no_dangling_references :
    (∀ (p n f : String) (t : Nat),
      refsResolve (generate_image_workflow p n f t) = true) ∧
    (∀ (p n : String) (lf : Option String) (ls : ℚ) (tw : List String)
      (w hgt st : Nat) (c : ℚ) (t : Nat),
      refsResolve (create_advanced_workflow p n lf ls tw w hgt st c t) = true) ∧
    (∀ (d : OptData) (ts : Nat),
      refsResolve (create_optimized_workflow d ts) = true) := by
  refine ⟨fun p n f t => rfl, ?_, fun d ts => rfl⟩
  intro p n lf ls tw w hgt st c t
  cases lf with
  | none => rfl
  | some s =>
    cases hb : (s == "") with
    | true => simp only [create_advanced_workflow, pyTruthy, hb]; rfl
    | false => simp only [create_advanced_workflow, pyTruthy, hb]; rfl

/-- Claim C4: a network error raised by a history query is swallowed:
the yoga polling loop takes one more sleep interval and goes on exactly
as it would from the next iteration, neither raising nor returning, and
the instagram progress probe reports an exception as "not yet
complete". -/
theorem c4_poll_errors_swallowed :
    (∀ (h : Nat → PollOutcome) (pid : String) (T k : Nat),
      5 * k < T → h k = PollOutcome.exn →
      yogaWaitFrom h pid T k = yogaWaitFrom h pid T (k + 1)) ∧
    (∀ pid : String, check_progress PollOutcome.exn pid = false) := by
  constructor
  · intro h pid T k hc he
    rw [yogaWaitFrom, if_pos hc, he]
    rfl
  · intro pid
    rfl

/-- Claim C4, witness: with the history endpoint raising on every
query, the first loop step of a 600-second wait is exactly the wait
from the next iteration. -/
theorem c4_witness :
    ((5 * 0 < 600) ∧
      yogaWaitFrom (fun _ => PollOutcome.exn) "abc123" 600 0 =
        yogaWaitFrom (fun _ => PollOutcome.exn) "abc123" 600 1) :=
  ⟨by omega,
    c4_poll_errors_swallowed.1 (fun _ => PollOutcome.exn) "abc123" 600 0
      (by omega) rfl⟩

/-- Claim C5: with ComfyUI reachable, a failing submit for one prompt
(non-200 status or a raised exception) contributes no result entry,
and the loop still processes every remaining prompt: the recorded
original prompts are exactly the prompts whose submit came back 200, in
order.  The fal generator's end-of-batch summary counts satisfy
successes + failures = total requested, whatever mix of successes,
failures and exceptions the tasks produced. -/
theorem c5_batch_failures_are_local :
    (∀ (use_optimization : Bool) (optOut : Nat → OptData)
      (times : Nat → Nat) (submit : Nat → SubmitOutcome)
      (prompts : List String),
      (generate_batch true use_optimization prompts optOut times submit).map
          (fun r => r.original_prompt) =
        ((pyEnumerate 1 prompts).filter
          (fun ip => isSubmitSuccess (submit ip.1))).map Prod.snd) ∧
    (∀ rs : List FalOutcome,
      (fal_summary rs).1 + (fal_summary rs).2 = rs.length) := by
  constructor
  · intro use_optimization optOut times submit prompts
    show (generate_batch_go use_optimization optOut times submit
        (pyEnumerate 1 prompts)).map (fun r => r.original_prompt) = _
    generalize pyEnumerate 1 prompts = l
    induction l with
    | nil => rfl
    | cons ip rest ih =>
      obtain ⟨i, p⟩ := ip
      cases hs : submit i with
      | exn => simp [generate_batch_go, hs, isSubmitSuccess, ih, List.filter_cons]
      | resp status body =>
        cases hb : (status == 200) with
        | true =>
          simp [generate_batch_go, hs, isSubmitSuccess, hb, ih,
            List.filter_cons, batchResultFor]
        | false =>
          simp [generate_batch_go, hs, isSubmitSuccess, hb, ih, List.filter_cons]
  · intro rs
    induction rs with
    | nil => rfl
    | cons r rest ih =>
      cases r <;> simp [fal_summary, List.countP_cons] at ih ⊢ <;> omega

/-- Claim C6: when a required credential is absent (here, the
`HF_TOKEN` entry of the dotenv environment is empty or unset), the
script prologue shared by the generator scripts prints a message
listing the missing keys, exits with code 1, and none of `main`'s steps
— in particular no network call — ever runs. -/
theorem c6_missing_credentials_fatal (env : String → Option String)
    (main : List StartupStep) (hmiss : cfg_HF_TOKEN env = "") :
    "HF_TOKEN" ∈ (verify_secrets env).missing ∧
    (verify_secrets env).printed =
      [ "⚠️  Missing required secrets: " ++
          String.intercalate ", " (verify_secrets env).missing,
        "Make sure ~/Workspaces/secrets.env exists and is properly formatted" ] ∧
    script_startup env main =
      (verify_secrets env).printed.map StartupStep.printedLine ++
        [StartupStep.exited 1] ∧
    (∀ url, StartupStep.networkCall url ∉ script_startup env main) := by
  have hb : (cfg_HF_TOKEN env == "") = true := by
    rw [beq_iff_eq]; exact hmiss
  cases hc : (cfg_CIVITAI_TOKEN env == "") with
  | true =>
    refine ⟨?_, ?_, ?_, ?_⟩ <;>
      simp [verify_secrets, script_startup, hb, hc]
  | false =>
    refine ⟨?_, ?_, ?_, ?_⟩ <;>
      simp [verify_secrets, script_startup, hb, hc]

/-- Claim C6, witness: with an entirely empty environment, startup
prints the message listing both missing keys and exits 1 before any
network call. -/
theorem c6_witness :
    cfg_HF_TOKEN (fun _ => none) = "" ∧
    script_startup (fun _ => none) [StartupStep.networkCall "http://127.0.0.1:8188/prompt"] =
      [ StartupStep.printedLine
          ("⚠️  Missing required secrets: " ++
            String.intercalate ", " (verify_secrets (fun _ => none)).missing),
        StartupStep.printedLine
          "Make sure ~/Workspaces/secrets.env exists and is properly formatted",
        StartupStep.exited 1 ] := by
  refine ⟨rfl, ?_⟩
  have h := c6_missing_credentials_fatal (fun _ => none)
    [StartupStep.networkCall "http://127.0.0.1:8188/prompt"] rfl
  rw [h.2.2.1, h.2.1]
  rfl

/-- Claim C7 (amended): when the enhancement endpoint is unreachable,
the Ollama-optimizer fallbacks behave as claimed — `_fallback_enhance`
returns the fixed fallback negative prompt together with the base
prompt followed by ", " and the comma-joined keywords selected from its
fallback pool, and `fallback_optimization` returns its fixed negative
prompt and the base prompt followed by ", " and its comma-joined fixed
keywords.  The promptsmith client, however, falls back to a bare
enhanced string — base prompt, ", ", one randomly chosen keyword string
— with no negative prompt at all (see the counterexample). -/
theorem c7_fallback_enhancers :
    (∀ (p : String) (tw : List String) (idxs : List Nat),
      insta_fallback_enhance p tw idxs =
        (p ++ ", " ++ String.intercalate ", "
            (idxs.filterMap (fun j => (insta_enhancement_pool tw).get? j)),
          insta_fallback_negative) ∧
      ∀ x ∈ idxs.filterMap (fun j => (insta_enhancement_pool tw).get? j),
        x ∈ insta_enhancement_pool tw) ∧
    (∀ p : String,
      (fallback_optimization p).optimized_prompt =
        p ++ ", " ++ String.intercalate ", " batch_fallback_keywords ∧
      (fallback_optimization p).negative_prompt = batch_fallback_negative) ∧
    (∀ (base : String) (i : Nat),
      expand_prompt_fallback base i =
        base ++ ", " ++ promptsmith_styles.getD i "") ∧
    (∀ (probe : String → Option Nat) (oll llc : Option String)
      (i : Nat) (base : String),
      find_working_endpoint probe = none →
      promptsmith_expand_prompt probe oll llc i base =
        expand_prompt_fallback base i) := by
  refine ⟨?_, ?_, fun base i => rfl, ?_⟩
  · intro p tw idxs
    refine ⟨rfl, ?_⟩
    intro x hx
    rcases List.mem_filterMap.mp hx with ⟨j, _, hj⟩
    exact List.get?_mem hj
  · intro p
    constructor
    · have h : (", professional photography, high quality, detailed, sharp focus, perfect lighting, cinematic composition, 8k resolution, masterpiece" : String) =
          ", " ++ String.intercalate ", " batch_fallback_keywords := by decide
      calc (fallback_optimization p).optimized_prompt
          = p ++ ", professional photography, high quality, detailed, sharp focus, perfect lighting, cinematic composition, 8k resolution, masterpiece" := rfl
        _ = p ++ (", " ++ String.intercalate ", " batch_fallback_keywords) := by
            rw [h]
        _ = p ++ ", " ++ String.intercalate ", " batch_fallback_keywords := by
            rw [String.append_assoc]
    · rfl
  · intro probe oll llc i base hnone
    simp [promptsmith_expand_prompt, hnone]

/-- Claim C7, witness: sampling index 0 of the fallback pool puts
"high quality", a pool keyword, into the selected enhancements. -/
theorem c7_witness :
    "high quality" ∈ insta_enhancement_pool [] :=
  (c7_fallback_enhancers.1 "portrait" [] [0]).2 "high quality" (by decide)

/-- Claim C7, counterexample: with every endpoint probe raising, the
promptsmith enhancer returns only the enhanced prompt — a single string
with no accompanying negative prompt, and one that equals neither
enhancer's fixed fallback negative-prompt string — so the claim is
false of the cited `expand_prompt_fallback`. -/
theorem c7_promptsmith_no_negative :
    promptsmith_expand_prompt (fun _ => none) none none 0 "red apple" =
      "red apple, masterpiece, best quality, highly detailed" ∧
    ("red apple, masterpiece, best quality, highly detailed" : String) ≠
      insta_fallback_negative ∧
    ("red apple, masterpiece, best quality, highly detailed" : String) ≠
      batch_fallback_negative := by
  refine ⟨by decide, by decide, by decide⟩

/-- Claim C8: `parse_optimization_result` never raises: for every
response string it either strictly parses the substring between the
first opening brace and the last closing brace and returns the parsed
value, or — when there is no such substring or the strict parse fails —
returns the default mapping, whose keys are exactly `optimized_prompt`,
`negative_prompt`, `style_notes` and `recommended_settings`. -/
theorem c8_defensive_parsing (loads : String → Option PyVal)
    (response : String) :
    (∃ sub v, extract_json_substring response = some sub ∧
      loads sub = some v ∧
      parse_optimization_result loads response = v) ∨
    (parse_optimization_result loads response = default_optimization response ∧
      pyKeys (default_optimization response) =
        ["optimized_prompt", "negative_prompt", "style_notes",
         "recommended_settings"]) := by
  cases hext : extract_json_substring response with
  | none => right; exact ⟨by simp [parse_optimization_result, hext], rfl⟩
  | some sub =>
    cases hl : loads sub with
    | none => right; exact ⟨by simp [parse_optimization_result, hext, hl], rfl⟩
    | some v =>
      left
      refine ⟨sub, v, rfl, hl, ?_⟩
      simp [parse_optimization_result, hext, hl]

/-- Claim C8 has no hypothesis beyond its universally quantified
inputs, but this concrete instance exercises the fallback branch: a
response with no braces parses to the default mapping. -/
theorem c8_witness :
    parse_optimization_result (fun _ => none) "no json here" =
      default_optimization "no json here" := by
  rcases c8_defensive_parsing (fun _ => none) "no json here" with
    ⟨sub, v, hext, hl, _⟩ | ⟨h, _⟩
  · exact absurd hl (by simp)
  · exact h

/-- Claim C9 (amended): each graph builder is deterministic given its
parameters together with the clock value it reads: two
`generate_image` calls whose `int(time.time())` reads leave the same
residue modulo 1000000 produce identical node mappings; but the seed is
derived from that hidden clock read, not from the listed parameters, so
two calls with identical prompt, negative prompt and parameters at
different times differ (see the counterexample). -/
theorem c9_builder_deterministic_given_clock (p n f : String)
    (t1 t2 : Nat) (h : t1 % 1000000 = t2 % 1000000) :
    generate_image_workflow p n f t1 = generate_image_workflow p n f t2 := by
  unfold generate_image_workflow
  rw [h]

/-- Claim C9, witness: clock reads 0 and 1000000 share a seed residue,
so the built graphs coincide. -/
theorem c9_witness :
    0 % 1000000 = 1000000 % 1000000 ∧
    generate_image_workflow "red apple on a table" "blurry" "flux_generated" 0 =
      generate_image_workflow "red apple on a table" "blurry" "flux_generated"
        1000000 :=
  ⟨by decide,
    c9_builder_deterministic_given_clock "red apple on a table" "blurry"
      "flux_generated" 0 1000000 (by decide)⟩

/-- Claim C9, counterexample: two `generate_image` calls with the same
prompt, negative prompt and (default) parameters, one clock tick apart,
return different node mappings — the `RandomNoise` seed in node "7"
differs — so the builder is not a pure function of the listed
parameters as claimed. -/
theorem c9_seed_depends_on_clock :
    generate_image_workflow "red apple on a table" "blurry" "flux_generated" 0 ≠
      generate_image_workflow "red apple on a table" "blurry" "flux_generated" 1 := by
  intro h
  have h7 := congrArg (fun g => nodeInput g "7" "noise_seed") h
  have h8 : (some (JVal.n 0) : Option JVal) = some (JVal.n 1) := h7
  exact absurd h8 (by decide)

/-- Claim C10: endpoint selection scans the fixed candidate list in
declaration order and returns the first endpoint whose liveness probe
reports HTTP 200; if every probe fails or raises it returns `None`; and
the probe itself is a total boolean — status 200 maps to True,
any other status or a raised exception to False. -/
theorem c10_endpoint_selection (probe : String → Option Nat) :
    find_working_endpoint probe =
      ENDPOINTS.find? (fun e => test_endpoint probe e) ∧
    (∀ url, test_endpoint probe url =
      ((probe (url ++ "/api/tags")).map (fun st => st == 200)).getD false) ∧
    ((∀ e, e ∈ ENDPOINTS → test_endpoint probe e = false) →
      find_working_endpoint probe = none) := by
  refine ⟨find_working_endpoint_aux_eq_find probe ENDPOINTS, ?_, ?_⟩
  · intro url
    cases hp : probe (url ++ "/api/tags") with
    | none => simp [test_endpoint, hp]
    | some st => simp [test_endpoint, hp]
  · intro hall
    rw [find_working_endpoint, find_working_endpoint_aux_eq_find probe ENDPOINTS,
      List.find?_eq_none]
    intro e he
    simp [hall e he]

/-- Claim C10, witness: when every probe raises, every candidate tests
False and the selection returns `None`. -/
theorem c10_witness :
    find_working_endpoint (fun _ => none) = none :=
  (c10_endpoint_selection (fun _ => none)).2.2 (fun _ _ => rfl)
